import Mathlib

/-
Verification of the Extra Fancy Sokoban controller (src/a3.py).

The shallow embedding below models the controller class `ExtraFancySokoban`
and the view helper `create_shop_items`.  Python strings that are file
contents are modelled as `List Char`; short identifier strings (markers,
item ids, dialog messages) are modelled as `String`.  The engine class
`SokobanModel` lives in model.py, which is not part of src/; its state and
the behaviour the controller relies on are modelled from the spec where a
concrete definition is needed, and kept as abstract total functions where
the claims quantify over engine behaviour.
-/

/-- Python runtime errors that the controller code can raise.  The marker
constants are plain one-character strings (src/a3.py writes them with
`file.write`), so calling one as a constructor raises `TypeError` and
accessing an `EFFECT` attribute on one raises `AttributeError`. -/
inductive PyErr where
  | valueError
  | indexError
  | typeError
  | nameError
  | attributeError
deriving DecidableEq, Repr

/-- Terrain classification of one maze cell (model.py `Tile`; the three
kinds are the ones src/a3.py dispatches on). -/
inductive Tile where
  | wall
  | floor
  | goal
deriving DecidableEq, Repr

/-- Modelled from the spec: the marker characters of a2_support are not in
src/.  §4.4 fixes them as single characters; the values used here match the
image file names referenced by src/a3.py ("images/W.png", "images/P.png",
"images/C.png", "images/S.png", "images/M.png", "images/F.png",
"images/G.png") and the literal `COIN = '$'` defined at src/a3.py line 79. -/
def WALL : String := "W"

/-- Modelled from the spec: floor marker (blank cell). -/
def FLOOR : String := " "

/-- Modelled from the spec: goal-tile marker. -/
def GOAL : String := "G"

/-- Modelled from the spec: player marker. -/
def PLAYER : String := "P"

/-- Coin marker; defined literally in src/a3.py line 79. -/
def COIN : String := "$"

/-- Modelled from the spec: crate marker. -/
def CRATE : String := "C"

/-- Modelled from the spec: strength-potion marker. -/
def STRENGTH_POTION : String := "S"

/-- Modelled from the spec: move-potion marker. -/
def MOVE_POTION : String := "M"

/-- Modelled from the spec: fancy-potion marker. -/
def FANCY_POTION : String := "F"

/-- `get_type` of a tile: the marker string the view and the save loop
compare against. -/
def Tile.get_type : Tile → String
  | .wall => WALL
  | .floor => FLOOR
  | .goal => GOAL

/-- An entity of the registry (model.py; the kinds are the ones src/a3.py
dispatches on).  Only crates carry a strength. -/
inductive Entity where
  | crate (strength : Int)
  | coin
  | strengthPotion
  | movePotion
  | fancyPotion
deriving DecidableEq, Repr

/-- `get_type` of an entity: the marker string used in dispatch. -/
def Entity.get_type : Entity → String
  | .crate _ => CRATE
  | .coin => COIN
  | .strengthPotion => STRENGTH_POTION
  | .movePotion => MOVE_POTION
  | .fancyPotion => FANCY_POTION

/-- `get_strength` of an entity.  src/a3.py only calls it on crates; the
value on other kinds is immaterial (Python would raise AttributeError). -/
def Entity.get_strength : Entity → Int
  | .crate s => s
  | _ => 0

/-- The value held by the model's maze attribute.  Normally a grid of
tiles; `load_game_state` (src/a3.py line 596) assigns it the last row's
local `row_maze` list, a list of wall markers that was appended to itself
(line 593: `row_maze.append(row_maze)`), represented here symbolically by
`selfAppendedRow` carrying the wall markers that precede the circular
reference. -/
inductive MazeField where
  | grid (g : List (List Tile))
  | selfAppendedRow (walls : List String)
deriving DecidableEq, Repr

/-- Engine state.  Modelled from the spec: model.py is not in src/.  The
fields are the ones the controller reads through accessors
(`get_maze`, `get_entities`, `get_player_position`, `get_player_strength`,
`get_player_moves_remaining`, `get_player_money`, `get_shop_items`) and,
per spec §9, writes by reaching directly into engine-internal fields
(`player_strength`, `player_moves_remaining`, `_player_position`, `maze`);
the spec treats those direct assignments as reaching the same state the
accessors read.  The registry is a position-keyed association list with
distinct keys (a Python dict). -/
structure SokobanModel where
  maze : MazeField
  entities : List ((Nat × Nat) × Entity)
  player_position : Nat × Nat
  player_strength : Int
  player_moves_remaining : Int
  player_money : Int
  shop_items : List (String × Int)
deriving DecidableEq, Repr

/-- First-match lookup in an association list (a Python `dict.get` /
catalogue lookup; dict keys are distinct so first match is the match). -/
def alist_get {α β : Type} [DecidableEq α] : List (α × β) → α → Option β
  | [], _ => none
  | (k, v) :: rest, key => if k = key then some v else alist_get rest key

/-- The maze accessor `get_maze`.  On a state whose maze attribute was
corrupted by the buggy load (a non-grid value) no theorem below reads the
maze through this accessor; the grid case is the one src/a3.py exercises. -/
def SokobanModel.get_maze (m : SokobanModel) : List (List Tile) :=
  match m.maze with
  | .grid g => g
  | .selfAppendedRow _ => []

/-- Decimal digits of a natural number, most significant first
(fuel-indexed so that it is structural). -/
def natReprAux : Nat → Nat → List Char
  | 0, _ => []
  | fuel + 1, n =>
    if n < 10 then [Nat.digitChar n]
    else natReprAux fuel (n / 10) ++ [Nat.digitChar (n % 10)]

/-- The characters Python's `str` produces for a natural number. -/
def natRepr (n : Nat) : List Char := natReprAux (n + 1) n

/-- The characters Python's `str` produces for an integer. -/
def intRepr : Int → List Char
  | .ofNat n => natRepr n
  | .negSucc n => '-' :: natRepr (n + 1)

/-- The characters src/a3.py lines 520-540 write for the maze cell
`(i, j)` holding tile `t`: the player marker at the player's position,
else the wall marker at walls, else the crate's strength digits, a
potion's marker, nothing for any other entity (a Coin falls through every
branch of the `if entity:` block and writes nothing), and a space for an
entity-free cell. -/
def cell_save (m : SokobanModel) (i j : Nat) (t : Tile) : List Char :=
  if (i, j) = m.player_position then PLAYER.data
  else if t.get_type = WALL then WALL.data
  else
    match alist_get m.entities (i, j) with
    | some entity =>
        if entity.get_type = CRATE then intRepr entity.get_strength
        else if entity.get_type = FANCY_POTION then FANCY_POTION.data
        else if entity.get_type = MOVE_POTION then MOVE_POTION.data
        else if entity.get_type = STRENGTH_POTION then STRENGTH_POTION.data
        else []
    | none => [' ']

/-- The characters one iteration of the outer loop of
`save_game_state` writes for row `i` (without the trailing newline). -/
def row_save (m : SokobanModel) (i : Nat) (row : List Tile) : List Char :=
  (row.enum.map fun jt => cell_save m i jt.1 jt.2).flatten

/-- `ExtraFancySokoban.save_game_state` (src/a3.py lines 502-541): the full
character content written to the chosen file — a header line
`"{strength} {moves_remaining}\n"` followed by one newline-terminated line
per maze row. -/
def save_game_state (m : SokobanModel) : List Char :=
  intRepr m.player_strength ++ [' '] ++ intRepr m.player_moves_remaining ++ ['\n']
    ++ (m.get_maze.enum.map fun irow => row_save m irow.1 irow.2 ++ ['\n']).flatten

/-- Python whitespace as removed by `str.strip` (ASCII range; the save
format only produces spaces and newlines). -/
def isPyWhitespace (c : Char) : Bool :=
  c = ' ' || c = '\t' || c = '\n' || c = '\r' || c = Char.ofNat 11 || c = Char.ofNat 12

/-- Drop leading Python whitespace. -/
def dropLeadingWS : List Char → List Char
  | [] => []
  | c :: rest => if isPyWhitespace c then dropLeadingWS rest else c :: rest

/-- Python `str.strip()`: remove leading and trailing whitespace. -/
def pyStrip (cs : List Char) : List Char :=
  (dropLeadingWS (dropLeadingWS cs).reverse).reverse

/-- Python `str.split(sep)` for a one-character separator: split on every
occurrence, keeping empty pieces. -/
def splitOnChar (sep : Char) : List Char → List (List Char)
  | [] => [[]]
  | c :: rest =>
    match splitOnChar sep rest with
    | [] => [[]]
    | g :: gs => if c = sep then [] :: g :: gs else (c :: g) :: gs

/-- Python `file.readlines()` on the given file content, with each line's
trailing newline removed (every use in src/a3.py strips the line before
reading it, so dropping the terminator here is behaviour-preserving).  A
final line terminator does not produce an extra empty line. -/
def readlines (cs : List Char) : List (List Char) :=
  let parts := splitOnChar '\n' cs
  if parts.getLast? = some [] then parts.dropLast else parts

/-- Value of a non-empty all-digit character list. -/
def digitsToNat (cs : List Char) : Option Nat :=
  if cs = [] then none
  else
    cs.foldl
      (fun acc c =>
        match acc with
        | none => none
        | some n => if c.isDigit then some (n * 10 + (c.toNat - '0'.toNat)) else none)
      (some 0)

/-- Python `int(s)` on a string without surrounding whitespace: optional
sign followed by digits; `none` models the `ValueError` raised otherwise. -/
def pyInt : List Char → Option Int
  | '-' :: rest => (digitsToNat rest).map fun n => -(n : Int)
  | '+' :: rest => (digitsToNat rest).map fun n => (n : Int)
  | cs => (digitsToNat cs).map fun n => (n : Int)

/-- One data row of the load loop (src/a3.py lines 564-590): walk the
stripped line's characters with their index `j`, assigning the model's
player position `(i, j + 1)` at the player marker, appending the wall
marker to the local `row_maze` list at a wall, and raising `TypeError` at
a crate or potion marker (the marker constants are strings, so
`CRATE()` etc. is a call on a string).  Any other character matches no
branch and is skipped; the local `entities` dict therefore never receives
an entry.  Returns the model (with any player-position mutations retained,
as a raised Python exception retains prior side effects), the accumulated
`row_maze` contents, and the error if one was raised. -/
def load_row (m : SokobanModel) (i j : Nat) :
    List Char → List String → SokobanModel × List String × Option PyErr
  | [], walls => (m, walls, none)
  | c :: rest, walls =>
    if String.singleton c = PLAYER then
      load_row { m with player_position := (i, j + 1) } i (j + 1) rest walls
    else if String.singleton c = WALL then
      load_row m i (j + 1) rest (walls ++ [WALL])
    else if String.singleton c = CRATE then (m, walls, some .typeError)
    else if String.singleton c = FANCY_POTION then (m, walls, some .typeError)
    else if String.singleton c = MOVE_POTION then (m, walls, some .typeError)
    else if String.singleton c = STRENGTH_POTION then (m, walls, some .typeError)
    else load_row m i (j + 1) rest walls

/-- The outer loop of `load_game_state` over the data lines (src/a3.py
lines 559-593).  Each iteration rebinds `row_maze` to the freshly built
row list (which line 593 appends to itself); only the binding left by the
last iteration survives the loop, returned here as the middle component
(`none` when the loop body never ran, in which case the later read of
`row_maze` raises `NameError`). -/
def load_rows (m : SokobanModel) (i : Nat) :
    List (List Char) → Option (List String) → SokobanModel × Option (List String) × Option PyErr
  | [], lastRow => (m, lastRow, none)
  | line :: rest, _ =>
    let r := load_row m i 0 (pyStrip line) []
    match r.2.2 with
    | some e => (r.1, none, some e)
    | none => load_rows r.1 (i + 1) rest (some r.2.1)

/-- `ExtraFancySokoban.load_game_state` (src/a3.py lines 543-600) applied
to the character content of the chosen file.  Returns the model after the
call together with the Python error that escaped it, if any; mutations
performed before an error are retained on the returned model, as in
Python.  Line 1 is parsed by a list comprehension of `int` (raising
`ValueError` before any mutation on a non-numeric item), then
`player_strength` and `player_moves_remaining` are assigned one at a time
(a one-number header mutates strength and then raises `IndexError`), the
data lines are walked by `load_rows`, the maze attribute is assigned the
last row's self-appended `row_maze` list, and `get_entities()` is called
with its result discarded. -/
def load_game_state (m : SokobanModel) (content : List Char) : SokobanModel × Option PyErr :=
  match readlines content with
  | [] => (m, some .indexError)
  | line0 :: dataLines =>
    match (splitOnChar ' ' (pyStrip line0)).mapM pyInt with
    | none => (m, some .valueError)
    | some [] => (m, some .indexError)
    | some [s0] => ({ m with player_strength := s0 }, some .indexError)
    | some (s0 :: s1 :: _) =>
      match load_rows { m with player_strength := s0, player_moves_remaining := s1 }
          0 dataLines none with
      | (m3, _, some e) => (m3, some e)
      | (m3, none, none) => (m3, some .nameError)
      | (m3, some walls, none) => ({ m3 with maze := .selfAppendedRow walls }, none)

/-- Modelled from the spec: the engine operations the controller calls
that live in model.py, which is not in src/.  They are total Lean
functions — the engine never halts play or raises on gameplay outcomes
(§4.3, §7) — and otherwise left abstract, so theorems about the shell
quantify over every engine behaviour. -/
structure EngineOps where
  attemptMove : SokobanModel → String → SokobanModel
  hasWon : SokobanModel → Bool
  reset : SokobanModel → SokobanModel

/-- Controller state (`ExtraFancySokoban`): the engine it owns plus the
instance attributes the controller itself assigns (`self.char` in
`handle_keypress`; `self.player_position` and `self.moves_remaining`,
set only by `chosen` and read by nothing). -/
structure Controller where
  model : SokobanModel
  char : Option String
  player_position : Nat × Nat
  moves_remaining : Int

/-- Observable side effects of the controller code, in program order:
calls into the engine's mutators, dialogs shown, view operations, root
destruction, and Python errors raised. -/
inductive Effect where
  | attemptMoveCall (key : String)
  | dialog (msg : String)
  | modelReset
  | clearAll
  | redrawView
  | destroyRoot
  | attemptPurchaseCall (item : String)
  | pyError (e : PyErr)
deriving DecidableEq, Repr

/-- The win dialog message of src/a3.py line 450. -/
def WIN_MSG : String := "You won! Play again?"

/-- The loss dialog message of src/a3.py line 454. -/
def LOSE_MSG : String := "You lose! Play again?"

/-- `ExtraFancySokoban.chosen` (src/a3.py lines 401-423): show a yes/no
dialog; on yes set the controller's own `player_position` and
`moves_remaining` attributes, reset the model, clear the view and redraw;
on no clear the view, reset the model and destroy the root.  `response`
is the user's answer to the dialog. -/
def chosen (ops : EngineOps) (ctrl : Controller) (message : String) (response : Bool) :
    Controller × List Effect :=
  if response then
    let ctrl1 := { ctrl with player_position := (0, 0), moves_remaining := 10 }
    let ctrl2 := { ctrl1 with model := ops.reset ctrl1.model }
    (ctrl2, [.dialog message, .modelReset, .clearAll, .redrawView])
  else
    let ctrl1 := { ctrl with model := ops.reset ctrl.model }
    (ctrl1, [.dialog message, .clearAll, .modelReset, .destroyRoot])

/-- `ExtraFancySokoban.handle_keypress` (src/a3.py lines 426-458): record
`event.char` in `self.char`; for a movement key call `attempt_move`, then
show the win dialog if `has_won()`, else the loss dialog if
`moves_remaining == 0 and not has_won()`, else redraw; any other key does
nothing further.  `response` is the user's answer should a dialog appear. -/
def handle_keypress (ops : EngineOps) (ctrl : Controller) (eventChar : String)
    (response : Bool) : Controller × List Effect :=
  let ctrl0 := { ctrl with char := some eventChar }
  if eventChar = "w" ∨ eventChar = "s" ∨ eventChar = "a" ∨ eventChar = "d" then
    let moved := ops.attemptMove ctrl0.model eventChar
    let ctrl1 := { ctrl0 with model := moved }
    if ops.hasWon moved then
      let r := chosen ops ctrl1 WIN_MSG response
      (r.1, .attemptMoveCall eventChar :: r.2)
    else if moved.player_moves_remaining = 0 ∧ ops.hasWon moved = false then
      let r := chosen ops ctrl1 LOSE_MSG response
      (r.1, .attemptMoveCall eventChar :: r.2)
    else
      (ctrl1, [.attemptMoveCall eventChar, .redrawView])
  else
    (ctrl0, [])

/-- Modelled from the spec (§4.2): fixed strength increment of a strength
or fancy potion; the constant's value is not given by the spec and is
immaterial to every theorem below. -/
def STRENGTH_INCREMENT : Int := 5

/-- Modelled from the spec (§4.2): fixed move increment of a move or
fancy potion. -/
def MOVE_INCREMENT : Int := 5

/-- Modelled from the spec (§4.2): the effect of the potion with the given
kind marker on the player's stats; potion effects touch only strength and
moves_remaining. -/
def apply_potion_effect (kind : String) (m : SokobanModel) : SokobanModel :=
  if kind = STRENGTH_POTION then
    { m with player_strength := m.player_strength + STRENGTH_INCREMENT }
  else if kind = MOVE_POTION then
    { m with player_moves_remaining := m.player_moves_remaining + MOVE_INCREMENT }
  else if kind = FANCY_POTION then
    { m with
        player_strength := m.player_strength + STRENGTH_INCREMENT,
        player_moves_remaining := m.player_moves_remaining + MOVE_INCREMENT }
  else m

/-- Modelled from the spec (§4.2): `SokobanModel.attempt_purchase`
(model.py, not in src/).  Look the item id up in the catalogue; unknown id
or insufficient funds is a silent no-op; otherwise debit exactly the
catalogue price and apply the potion's effect immediately. -/
def attempt_purchase (m : SokobanModel) (item_id : String) : SokobanModel :=
  match alist_get m.shop_items item_id with
  | none => m
  | some price =>
    if m.player_money < price then m
    else apply_potion_effect item_id { m with player_money := m.player_money - price }

/-- `ExtraFancySokoban.perform_action` (src/a3.py lines 460-479): if the
item id equals the fifteen-character literal `"STRENGTH_POTION"`, evaluate
`STRENGTH_POTION.EFFECT` — an attribute access on the one-character marker
string, which raises `AttributeError`; otherwise call
`attempt_purchase(item_id)` and redraw. -/
def perform_action (ctrl : Controller) (item_id : String) : Controller × List Effect :=
  if item_id = "STRENGTH_POTION" then
    (ctrl, [.pyError .attributeError])
  else
    let m := attempt_purchase ctrl.model item_id
    ({ ctrl with model := m }, [.attemptPurchaseCall item_id, .redrawView])

/-- The display name `FancySokobanView.create_shop_items` chooses for an
item id (src/a3.py lines 324-330); ids other than the three potion markers
keep the initial `None`. -/
def display_name (key : String) : Option String :=
  if key = STRENGTH_POTION then some ("Strength Potion")
  else if key = MOVE_POTION then some ("Move Potion")
  else if key = FANCY_POTION then some ("Fancy Potion")
  else none

/-- `FancySokobanView.create_shop_items` (src/a3.py lines 302-335): for
each catalogue entry, create a buyable item whose label is the display
name and price, and whose Buy-button callback takes no argument and calls
`button_callback` on that entry's item id (the `current_key=key` default
argument captures the id per entry). -/
def create_shop_items {α : Type} (shopItems : List (String × Int)) (cb : String → α) :
    List (Option String × Int × (Unit → α)) :=
  shopItems.map fun kv => (display_name kv.1, kv.2, fun _ => cb kv.1)

/-- The shop buttons the controller's constructor wires up (src/a3.py
lines 379-382): `create_shop_items` over the model's catalogue with
`lambda item_id: self.perform_action(item_id)` as the button callback. -/
def shop_buttons (ctrl : Controller) :
    List (Option String × Int × (Unit → Controller × List Effect)) :=
  create_shop_items ctrl.model.shop_items fun item_id => perform_action ctrl item_id

/-- Gameplay outcome as the shell reports it. -/
inductive Outcome where
  | win
  | lose
  | continuing
deriving DecidableEq, Repr

/-- The outcome the spec's shell derives from the two engine queries after
a move: win iff `has_won()`, else loss iff `moves_remaining == 0`. -/
def shell_outcome (won : Bool) (moves : Int) : Outcome :=
  if won then .win else if moves = 0 then .lose else .continuing

/-- The outcome a controller run reports, read off its effect trace: which
of the two end-of-game dialogs it showed, if any. -/
def reported_outcome (trace : List Effect) : Outcome :=
  if Effect.dialog WIN_MSG ∈ trace then .win
  else if Effect.dialog LOSE_MSG ∈ trace then .lose
  else .continuing

/-- A 2×2 state (floor everywhere except a wall at (1, 1), player at
(0, 0), empty registry) used to exercise the save/load round trip; its
save file content is `"3 7\nP \n W\n"`. -/
def roundTripModel : SokobanModel :=
  { maze := .grid [[.floor, .floor], [.floor, .wall]]
    entities := []
    player_position := (0, 0)
    player_strength := 3
    player_moves_remaining := 7
    player_money := 0
    shop_items := [] }

/-- A 1×2 all-floor state with the player at (0, 0) and a Coin at (0, 1). -/
def coinModel : SokobanModel :=
  { maze := .grid [[.floor, .floor]]
    entities := [((0, 1), .coin)]
    player_position := (0, 0)
    player_strength := 1
    player_moves_remaining := 1
    player_money := 0
    shop_items := [] }

/-- A 1×2 state whose saved file is fed malformed variants in the error
theorems; its distinctive stats (9, 9) make mutation visible. -/
def malformedBase : SokobanModel :=
  { maze := .grid [[.floor, .floor]]
    entities := []
    player_position := (0, 0)
    player_strength := 9
    player_moves_remaining := 9
    player_money := 0
    shop_items := [] }

/-- A 1×3 all-floor state with a strength-3 crate at (0, 2) and the player
at (0, 0); its save file content is `"2 5\nP 3\n"`. -/
def crateSrc : SokobanModel :=
  { maze := .grid [[.floor, .floor, .floor]]
    entities := [((0, 2), .crate 3)]
    player_position := (0, 0)
    player_strength := 2
    player_moves_remaining := 5
    player_money := 0
    shop_items := [] }

/-- `crateSrc` with an empty registry: the load target that shows no
entity entry is ever created from a saved file. -/
def crateModel : SokobanModel := { crateSrc with entities := [] }

/-- A 1×2 all-floor state with a strength potion at (0, 1) and the player
at (0, 0); its save file content is `"2 5\nPS\n"`. -/
def potionSrc : SokobanModel :=
  { maze := .grid [[.floor, .floor]]
    entities := [((0, 1), .strengthPotion)]
    player_position := (0, 0)
    player_strength := 2
    player_moves_remaining := 5
    player_money := 0
    shop_items := [] }

/-- An engine whose queries report a win after every move; used to
instantiate the shell theorems at concrete inputs. -/
def wonOps : EngineOps :=
  { attemptMove := fun m _ => m
    hasWon := fun _ => true
    reset := fun m => m }

/-- An engine whose queries never report a win; used to instantiate the
shell theorems at concrete inputs. -/
def calmOps : EngineOps :=
  { attemptMove := fun m _ => m
    hasWon := fun _ => false
    reset := fun m => m }

/-- A concrete controller state: seven moves left, five dollars, a
strength potion priced at five in the catalogue. -/
def demoCtrl : Controller :=
  { model :=
      { maze := .grid [[.floor]]
        entities := []
        player_position := (0, 0)
        player_strength := 1
        player_moves_remaining := 7
        player_money := 5
        shop_items := [(STRENGTH_POTION, 5)] }
    char := none
    player_position := (0, 0)
    moves_remaining := 0 }

/-- `load_row` only ever rewrites the model's player position: the entity
registry it returns is the registry it was given, whether it finishes the
row or raises. -/
theorem load_row_entities (cs : List Char) : ∀ (m : SokobanModel) (i j : Nat)
    (walls : List String), (load_row m i j cs walls).1.entities = m.entities := by
  induction cs with
  | nil => intro m i j walls; rfl
  | cons c rest ih =>
    intro m i j walls
    unfold load_row
    repeat' split
    any_goals rfl
    all_goals exact ih ..

/-- The data-line loop of the load keeps the entity registry of the model
it was given, in every branch. -/
theorem load_rows_entities (ls : List (List Char)) : ∀ (m : SokobanModel) (i : Nat)
    (lastRow : Option (List String)),
    (load_rows m i ls lastRow).1.entities = m.entities := by
  induction ls with
  | nil => intro m i lastRow; rfl
  | cons line rest ih =>
    intro m i lastRow
    simp only [load_rows]
    cases h : (load_row m i 0 (pyStrip line) []).2.2 with
    | none => simp [h, ih, load_row_entities]
    | some e => simp [h, load_row_entities]

/-- C1: the claim says `load_game_state (save_game_state state)` reproduces
strength, moves, player position, walls and crate/potion entries.  On the
concrete state `roundTripModel` the reload completes without error yet
moves the player from (0, 0) to (0, 1) and replaces the maze grid by the
self-appended wall list of the last row, so the round trip does not
reproduce the state. -/
theorem C1_round_trip_not_reproduced :
    (load_game_state roundTripModel (save_game_state roundTripModel)).2 = none ∧
    (load_game_state roundTripModel (save_game_state roundTripModel)).1.player_position
      = (0, 1) ∧
    roundTripModel.player_position = (0, 0) ∧
    (load_game_state roundTripModel (save_game_state roundTripModel)).1.maze
      = MazeField.selfAppendedRow [WALL] ∧
    roundTripModel.maze = MazeField.grid [[.floor, .floor], [.floor, .wall]] := by
  decide

/-- C2: the claim says every cell of a data row produces exactly one
character, a space at Coin-holding cells.  On `coinModel` — a width-2 maze
with a Coin at (0, 1) — the saved content is `"1 1\nP\n"`: the Coin cell
produced no character at all and the data row has length one. -/
theorem C2_save_coin_cell_writes_nothing :
    coinModel.get_maze = [[Tile.floor, Tile.floor]] ∧
    alist_get coinModel.entities (0, 1) = some Entity.coin ∧
    save_game_state coinModel = ['1', ' ', '1', '\n', 'P', '\n'] := by
  decide

/-- C3: the claim says a malformed file makes `load_game_state` fail with
a `CorruptSaveError` and leaves the engine unmutated.  The file
`"1 2\nP?\n"` (unknown character `?`) is accepted with no error while
strength, moves and position are all mutated; the file `"5\nP\n"`
(one-integer header) assigns the strength before raising a bare
IndexError, a partial mutation. -/
theorem C3_load_malformed_silently_mutates :
    (load_game_state malformedBase ['1', ' ', '2', '\n', 'P', '?', '\n']).2 = none ∧
    (load_game_state malformedBase ['1', ' ', '2', '\n', 'P', '?', '\n']).1.player_strength
      = 1 ∧
    malformedBase.player_strength = 9 ∧
    load_game_state malformedBase ['5', '\n', 'P', '\n']
      = ({ malformedBase with player_strength := 5 }, some PyErr.indexError) := by
  decide

/-- C4: the claim says decoding a well-formed save reconstructs the wall
layout, the crate/potion registry entries and the player position.  The
file `"2 5\nP 3\n"` is the save of `crateSrc` (a strength-3 crate at
(0, 2)); loading it into the empty-registry `crateModel` creates no
registry entry (the digit `3` matches no branch), replaces the maze with
an empty self-appended row list, and puts the player at (0, 1); loading
the potion save of `potionSrc` raises TypeError (the marker constant is a
string being called). -/
theorem C4_load_reconstructs_no_state :
    save_game_state crateSrc = ['2', ' ', '5', '\n', 'P', ' ', '3', '\n'] ∧
    load_game_state crateModel ['2', ' ', '5', '\n', 'P', ' ', '3', '\n']
      = ({ crateModel with
            maze := MazeField.selfAppendedRow []
            player_position := (0, 1) }, none) ∧
    crateModel.entities = [] ∧
    save_game_state potionSrc = ['2', ' ', '5', '\n', 'P', 'S', '\n'] ∧
    (load_game_state crateModel ['2', ' ', '5', '\n', 'P', 'S', '\n']).2
      = some PyErr.typeError := by
  decide

/-- C5: after the `attempt_move` issued by a movement keypress, the shell
reports a loss if and only if `moves_remaining == 0 AND NOT has_won()`
holds of the post-move state — for every engine behaviour, controller
state and dialog answer. -/
theorem C5_loss_reported_iff_moves_zero_and_not_won (ops : EngineOps)
    (ctrl : Controller) (key : String) (response : Bool)
    (h : key = "w" ∨ key = "s" ∨ key = "a" ∨ key = "d") :
    Effect.dialog LOSE_MSG ∈ (handle_keypress ops ctrl key response).2 ↔
      ((ops.attemptMove ctrl.model key).player_moves_remaining = 0 ∧
        ops.hasWon (ops.attemptMove ctrl.model key) = false) := by
  by_cases hw : ops.hasWon (ops.attemptMove ctrl.model key)
  · cases response <;> simp [handle_keypress, chosen, WIN_MSG, LOSE_MSG, h, hw]
  · by_cases hz : (ops.attemptMove ctrl.model key).player_moves_remaining = 0
    · cases response <;> simp [handle_keypress, chosen, WIN_MSG, LOSE_MSG, h, hw, hz]
    · cases response <;> simp [handle_keypress, chosen, WIN_MSG, LOSE_MSG, h, hw, hz]

/-- Witness for C5 at the concrete engine `calmOps`, controller `demoCtrl`,
key `"w"` and answer `true`. -/
theorem C5_loss_reported_iff_moves_zero_and_not_won_witness :
    (("w" : String) = "w" ∨ ("w" : String) = "s" ∨ ("w" : String) = "a"
      ∨ ("w" : String) = "d") ∧
    (Effect.dialog LOSE_MSG ∈ (handle_keypress calmOps demoCtrl ("w") true).2 ↔
      ((calmOps.attemptMove demoCtrl.model ("w")).player_moves_remaining = 0 ∧
        calmOps.hasWon (calmOps.attemptMove demoCtrl.model ("w")) = false)) :=
  ⟨Or.inl rfl,
    C5_loss_reported_iff_moves_zero_and_not_won calmOps demoCtrl ("w") true (Or.inl rfl)⟩

/-- Potion effects never touch the player's money. -/
theorem apply_potion_effect_money (kind : String) (m : SokobanModel) :
    (apply_potion_effect kind m).player_money = m.player_money := by
  unfold apply_potion_effect
  repeat' split
  all_goals rfl

/-- C6: every Buy button built by `create_shop_items` calls
`perform_action` on its own catalogue item id; for a catalogue id (one of
the three potion kind markers) `perform_action` goes through
`attempt_purchase` — its only effects are the purchase call and a redraw,
never the direct apply-effect branch — and the money afterwards is debited
by exactly the catalogue price on success and unchanged on failure. -/
theorem C6_shop_buy_routes_through_attempt_purchase (ctrl : Controller)
    (key : String) (price : Int)
    (hkey : key = STRENGTH_POTION ∨ key = MOVE_POTION ∨ key = FANCY_POTION)
    (hprice : alist_get ctrl.model.shop_items key = some price) :
    ((shop_buttons ctrl).map fun b => b.2.2 ()) =
      (ctrl.model.shop_items.map fun kv => perform_action ctrl kv.1) ∧
    (perform_action ctrl key).1.model = attempt_purchase ctrl.model key ∧
    (perform_action ctrl key).2 = [.attemptPurchaseCall key, .redrawView] ∧
    (perform_action ctrl key).1.model.player_money =
      (if price ≤ ctrl.model.player_money then ctrl.model.player_money - price
       else ctrl.model.player_money) := by
  have hne : key ≠ "STRENGTH_POTION" := by
    rcases hkey with hk | hk | hk <;> subst hk <;> decide
  refine ⟨?_, ?_, ?_, ?_⟩
  · simp [shop_buttons, create_shop_items, List.map_map]
  · simp [perform_action, hne]
  · simp [perform_action, hne]
  · simp only [perform_action, if_neg hne]
    simp only [attempt_purchase, hprice]
    by_cases hm : ctrl.model.player_money < price
    · rw [if_pos hm, if_neg (by omega)]
    · rw [if_neg hm, if_pos (by omega)]
      simp [apply_potion_effect_money]

/-- Witness for C6 at `demoCtrl`, whose catalogue holds the strength
potion at price 5 with the player holding exactly 5 dollars. -/
theorem C6_shop_buy_routes_through_attempt_purchase_witness :
    ((STRENGTH_POTION = STRENGTH_POTION ∨ STRENGTH_POTION = MOVE_POTION
        ∨ STRENGTH_POTION = FANCY_POTION) ∧
      alist_get demoCtrl.model.shop_items STRENGTH_POTION = some 5) ∧
    (perform_action demoCtrl STRENGTH_POTION).1.model.player_money =
      (if (5 : Int) ≤ demoCtrl.model.player_money then demoCtrl.model.player_money - 5
       else demoCtrl.model.player_money) :=
  ⟨⟨Or.inl rfl, by decide⟩,
    (C6_shop_buy_routes_through_attempt_purchase demoCtrl STRENGTH_POTION 5
      (Or.inl rfl) (by decide)).2.2.2⟩

/-- C7: for every movement keypress the shell first calls `attempt_move`,
and the outcome it then reports is exactly the function
`shell_outcome` of the two queries `has_won()` and
`get_player_moves_remaining()` on the post-move state — the engine, a
total function in this embedding, never halts play or raises, and the
shell observes the outcome only through those two queries. -/
theorem C7_shell_outcome_determined_by_queries (ops : EngineOps)
    (ctrl : Controller) (key : String) (response : Bool)
    (h : key = "w" ∨ key = "s" ∨ key = "a" ∨ key = "d") :
    (handle_keypress ops ctrl key response).2.head? = some (.attemptMoveCall key) ∧
    reported_outcome (handle_keypress ops ctrl key response).2 =
      shell_outcome (ops.hasWon (ops.attemptMove ctrl.model key))
        ((ops.attemptMove ctrl.model key).player_moves_remaining) := by
  by_cases hw : ops.hasWon (ops.attemptMove ctrl.model key)
  · cases response <;>
      simp [handle_keypress, chosen, reported_outcome, shell_outcome, WIN_MSG, LOSE_MSG, h, hw]
  · by_cases hz : (ops.attemptMove ctrl.model key).player_moves_remaining = 0
    · cases response <;>
        simp [handle_keypress, chosen, reported_outcome, shell_outcome, WIN_MSG, LOSE_MSG, h, hw, hz]
    · cases response <;>
        simp [handle_keypress, chosen, reported_outcome, shell_outcome, WIN_MSG, LOSE_MSG, h, hw, hz]

/-- Witness for C7 at the concrete engine `calmOps`, controller `demoCtrl`,
key `"s"` and answer `false`. -/
theorem C7_shell_outcome_determined_by_queries_witness :
    (("s" : String) = "w" ∨ ("s" : String) = "s" ∨ ("s" : String) = "a"
      ∨ ("s" : String) = "d") ∧
    ((handle_keypress calmOps demoCtrl ("s") false).2.head?
        = some (.attemptMoveCall ("s")) ∧
      reported_outcome (handle_keypress calmOps demoCtrl ("s") false).2 =
        shell_outcome (calmOps.hasWon (calmOps.attemptMove demoCtrl.model ("s")))
          ((calmOps.attemptMove demoCtrl.model ("s")).player_moves_remaining)) :=
  ⟨Or.inr (Or.inl rfl),
    C7_shell_outcome_determined_by_queries calmOps demoCtrl ("s") false
      (Or.inr (Or.inl rfl))⟩

/-- C8: a keypress whose character is none of w, a, s, d leaves the model
untouched and produces no effect at all — no engine call, no view change,
no redraw (the handler records the character in the controller's own
`char` attribute and returns). -/
theorem C8_non_movement_key_is_inert (ops : EngineOps) (ctrl : Controller)
    (key : String) (response : Bool)
    (h : ¬(key = "w" ∨ key = "s" ∨ key = "a" ∨ key = "d")) :
    (handle_keypress ops ctrl key response).1.model = ctrl.model ∧
    (handle_keypress ops ctrl key response).2 = [] := by
  simp [handle_keypress, h]

/-- Witness for C8 at the concrete key `"x"`. -/
theorem C8_non_movement_key_is_inert_witness :
    (¬(("x" : String) = "w" ∨ ("x" : String) = "s" ∨ ("x" : String) = "a"
      ∨ ("x" : String) = "d")) ∧
    ((handle_keypress calmOps demoCtrl ("x") true).1.model = demoCtrl.model ∧
      (handle_keypress calmOps demoCtrl ("x") true).2 = []) :=
  ⟨by decide, C8_non_movement_key_is_inert calmOps demoCtrl ("x") true (by decide)⟩

/-- C9: `load_game_state` never updates the engine's entity registry —
whatever the file content and whether the load succeeds or raises, the
model's entity map afterwards is exactly what it was before (the load's
entity handling lives in a per-row local dict that is discarded; the final
`get_entities()` call is a read whose result is dropped). -/
theorem C9_load_preserves_entity_registry (m : SokobanModel) (content : List Char) :
    (load_game_state m content).1.entities = m.entities := by
  unfold load_game_state
  repeat' split
  any_goals rfl
  all_goals rename_i heq
  all_goals
    have he := congrArg (fun p => p.1.entities) heq.symm
    simpa [load_rows_entities] using he

/-- C10: when the move ends the game (win, or loss via zero moves with no
win), the handler shows the one outcome dialog and performs no redraw for
that move; a redraw happens exactly when the user answers yes, and then
the trace is dialog, model reset, view clear, redraw — the redraw strictly
after the reset, with the controller's model equal to the reset model. -/
theorem C10_endgame_dialog_redraw_only_after_reset (ops : EngineOps)
    (ctrl : Controller) (key : String) (response : Bool)
    (hk : key = "w" ∨ key = "s" ∨ key = "a" ∨ key = "d")
    (hend : ops.hasWon (ops.attemptMove ctrl.model key) = true ∨
      (ops.attemptMove ctrl.model key).player_moves_remaining = 0) :
    (Effect.redrawView ∈ (handle_keypress ops ctrl key response).2 ↔ response = true) ∧
    (response = true →
      (handle_keypress ops ctrl key response).2 =
        [.attemptMoveCall key,
         .dialog (if ops.hasWon (ops.attemptMove ctrl.model key) then WIN_MSG
                  else LOSE_MSG),
         .modelReset, .clearAll, .redrawView] ∧
      (handle_keypress ops ctrl key response).1.model =
        ops.reset (ops.attemptMove ctrl.model key)) ∧
    (response = false →
      (handle_keypress ops ctrl key response).2 =
        [.attemptMoveCall key,
         .dialog (if ops.hasWon (ops.attemptMove ctrl.model key) then WIN_MSG
                  else LOSE_MSG),
         .clearAll, .modelReset, .destroyRoot]) := by
  by_cases hw : ops.hasWon (ops.attemptMove ctrl.model key)
  · cases response <;> simp [handle_keypress, chosen, hk, hw]
  · rcases hend with hend | hz
    · simp [hw] at hend
    · cases response <;> simp [handle_keypress, chosen, hk, hw, hz]

/-- Witness for C10 at the always-winning engine `wonOps`, controller
`demoCtrl`, key `"w"` and answer `true`. -/
theorem C10_endgame_dialog_redraw_only_after_reset_witness :
    ((("w" : String) = "w" ∨ ("w" : String) = "s" ∨ ("w" : String) = "a"
        ∨ ("w" : String) = "d") ∧
      (wonOps.hasWon (wonOps.attemptMove demoCtrl.model ("w")) = true ∨
        (wonOps.attemptMove demoCtrl.model ("w")).player_moves_remaining = 0)) ∧
    ((Effect.redrawView ∈ (handle_keypress wonOps demoCtrl ("w") true).2 ↔
        true = true) ∧
      (true = true →
        (handle_keypress wonOps demoCtrl ("w") true).2 =
          [.attemptMoveCall ("w"),
           .dialog (if wonOps.hasWon (wonOps.attemptMove demoCtrl.model ("w"))
                    then WIN_MSG else LOSE_MSG),
           .modelReset, .clearAll, .redrawView] ∧
        (handle_keypress wonOps demoCtrl ("w") true).1.model =
          wonOps.reset (wonOps.attemptMove demoCtrl.model ("w"))) ∧
      (true = false →
        (handle_keypress wonOps demoCtrl ("w") true).2 =
          [.attemptMoveCall ("w"),
           .dialog (if wonOps.hasWon (wonOps.attemptMove demoCtrl.model ("w"))
                    then WIN_MSG else LOSE_MSG),
           .clearAll, .modelReset, .destroyRoot])) :=
  ⟨⟨Or.inl rfl, Or.inl rfl⟩,
    C10_endgame_dialog_redraw_only_after_reset wonOps demoCtrl ("w") true
      (Or.inl rfl) (Or.inl rfl)⟩
